import Mathlib

/-!
Verification of the Placerank repository (dataset acquisition/indexing,
IR-model abstraction, terminal-UI presenter) against its natural-language
specification.  The Python sources are shallowly embedded: pure helpers
become Lean functions, filesystem and process state are passed explicitly,
and fallible operations return `Except`.  The filesystem is modelled as a
map from path to optional file content; the HTTP boundary as a map from
URL to a response record mirroring the fields of a `requests` response
(with the gzip decompression of the body folded into `body`, since the
decompressor is an external library used as a black box).
-/

/-- Decidable equality of `Except` values, for evaluating the embedded
operations on concrete inputs. -/
instance {ε α : Type} [DecidableEq ε] [DecidableEq α] :
    DecidableEq (Except ε α) := fun a b =>
  match a, b with
  | .error e1, .error e2 =>
    if h : e1 = e2 then .isTrue (h ▸ rfl)
    else .isFalse (fun hc => h (by injection hc))
  | .error _, .ok _ => .isFalse (fun hc => by injection hc)
  | .ok _, .error _ => .isFalse (fun hc => by injection hc)
  | .ok v1, .ok v2 =>
    if h : v1 = v2 then .isTrue (h ▸ rfl)
    else .isFalse (fun hc => h (by injection hc))

/-- Errors raised by the embedded code, by Python exception kind. -/
inductive Err where
  | connectionError (code : Nat)
  | attributeError (attr : String)
  | runtimeError (msg : String)
  | indexError
deriving DecidableEq, Repr

/-- A `requests` HTTP response: `ok`, `status_code` and the (decompressed)
text `body`.  The real library exposes exactly `ok` and `status_code`;
there is no `status` attribute. -/
structure Response where
  ok : Bool
  status_code : Nat
  body : String
deriving DecidableEq, Repr

/-- Numeric-attribute lookup on a `requests.Response`, as the requests
library defines it: `status_code` exists, any other name (in particular
`status`) raises `AttributeError`, i.e. yields `none` here. -/
def Response.numAttr (r : Response) (a : String) : Option Nat :=
  if a = "status_code" then some r.status_code else none

/-- The network: what a GET of each URL returns. -/
def Net := String → Response

/-- The local filesystem: content of the file at each path (`none` when no
such file exists). -/
def FileSys := String → Option String

/-- `download_dataset(url, storage)` from `dataset.py`.  On a non-ok
response the source evaluates `f"... {r.status}"` inside the raise; the
`status` attribute lookup is modelled through `Response.numAttr`.  On
success every decompressed line is decoded and written into `storage`,
which is rewound and returned: net effect, the passed buffer content
followed by the decompressed body. -/
def download_dataset (net : Net) (url : String) (storage : String) :
    Except Err String :=
  let r := net url
  if !r.ok then
    match r.numAttr "status" with
    | none => .error (.attributeError "status")
    | some s => .error (.connectionError s)
  else
    .ok (storage ++ r.body)

/-- Python truthiness of an optional string argument: `None` and `""` are
falsy. -/
def truthy : Option String → Bool
  | none => false
  | some s => !(s = "")

/-- The test `not local_file or not os.path.isfile(local_file)` from
`get_dataset`, with short-circuit evaluation. -/
def localInvalid (fs : FileSys) : Option String → Bool
  | none => true
  | some p => (p = "") || (fs p).isNone

/-- `get_dataset(local_file, remote_url, storage)` from `dataset.py`.
Returns the resulting buffer (or error) together with the filesystem after
the call.  On the remote path with a truthy `local_file` the source runs
`print(storage.getvalue(), file = f)` on a file opened in `'w'` mode:
a full overwrite of the file with the buffer text plus the single
trailing newline that `print` appends. -/
def get_dataset (net : Net) (local_file remote_url : Option String)
    (storage : String) (fs : FileSys) : Except Err String × FileSys :=
  if !truthy remote_url && localInvalid fs local_file then
    (.error (.runtimeError
      "Invalid local file and no remote source. Please provide at least one valid argument."),
     fs)
  else if truthy remote_url then
    match download_dataset net (remote_url.getD "") storage with
    | .error e => (.error e, fs)
    | .ok s =>
      if truthy local_file then
        (.ok s, fun p => if p = local_file.getD "" then some (s ++ "\n") else fs p)
      else
        (.ok s, fs)
  else
    (.ok ((fs (local_file.getD "")).getD ""), fs)

/-- `TolerantRetrievalMock.expand` from `models.py`: `return query`. -/
def TolerantRetrievalMock.expand (query : String) : String :=
  query

/-- C7: for every input string q, TolerantRetrievalMock's expand operation
returns exactly q, unchanged. -/
theorem c7_tolerant_mock_identity (q : String) :
    TolerantRetrievalMock.expand q = q :=
  rfl

/-- C7 witness at a concrete query string. -/
theorem c7_tolerant_mock_identity_witness :
    TolerantRetrievalMock.expand "cozy room near park" = "cozy room near park" :=
  c7_tolerant_mock_identity "cozy room near park"

/-- A server answering every GET with an empty 503 failure response. -/
def net503 : Net := fun _ => ⟨false, 503, ""⟩

/-- C2: on a non-success HTTP response with status code 503 the code does
not raise `ConnectionError(503)`: formatting the error message reads the
nonexistent `status` attribute of the response, so the call fails with
`AttributeError` instead. -/
theorem c2_failed_download_attribute_error :
    download_dataset net503 "http://example.org/listings.csv.gz" "" =
      .error (.attributeError "status") ∧
    Err.attributeError "status" ≠ Err.connectionError 503 := by
  constructor
  · rfl
  · decide

/-- C4: with a falsy `remote_url` and a `local_file` that is falsy or does
not exist on disk, `get_dataset` fails with the invalid-input
`RuntimeError` and leaves the filesystem untouched — nothing is read or
written. -/
theorem c4_invalid_input_rejection (net : Net) (lf ru : Option String)
    (storage : String) (fs : FileSys)
    (hru : truthy ru = false) (hlf : localInvalid fs lf = true) :
    get_dataset net lf ru storage fs =
      (.error (.runtimeError
        "Invalid local file and no remote source. Please provide at least one valid argument."),
       fs) := by
  unfold get_dataset
  rw [hru, hlf]
  rfl

/-- C4 witness: a nonexistent path with no remote source is rejected. -/
theorem c4_invalid_input_rejection_witness :
    get_dataset net503 (some "datasets/listings.csv") none "" (fun _ => none) =
      (.error (.runtimeError
        "Invalid local file and no remote source. Please provide at least one valid argument."),
       (fun _ => none)) :=
  c4_invalid_input_rejection net503 (some "datasets/listings.csv") none ""
    (fun _ => none) rfl rfl

/-- A server delivering the fixed text "abc" (as decompressed body) for
every URL, with a success status. -/
def netAbc : Net := fun _ => ⟨true, 200, "abc"⟩

/-- C1 counterexample: downloading "abc" while caching to file "f" and then
re-reading "f" with no remote URL yields the buffer "abc\n", not the
original "abc" — the cache write appends a newline, so the round trip is
not the identity. -/
theorem c1_round_trip_counterexample :
    (get_dataset netAbc (some "f") none ""
        (get_dataset netAbc (some "f") (some "u") "" (fun _ => none)).2).1 =
      .ok "abc\n" ∧
    (get_dataset netAbc (some "f") (some "u") "" (fun _ => none)).1 = .ok "abc" ∧
    (Except.ok "abc\n" : Except Err String) ≠ .ok "abc" := by
  refine ⟨rfl, rfl, by simp⟩

/-- C1 amended: with a truthy remote URL `u` whose download succeeds with
body `b`, and a truthy cache path `p`, `get_dataset` returns the buffer
`storage ++ b` and writes `storage ++ b ++ "\n"` (one trailing newline
appended by the line-print) to `p`; a subsequent call with no remote URL
returns that file content, i.e. the originally downloaded buffer plus one
trailing newline. -/
theorem c1_round_trip_trailing_newline (net : Net) (p u storage : String)
    (fs : FileSys) (hp : p ≠ "") (hu : u ≠ "") (hok : (net u).ok = true) :
    (get_dataset net (some p) (some u) storage fs).1 =
      .ok (storage ++ (net u).body) ∧
    (get_dataset net (some p) (some u) storage fs).2 p =
      some (storage ++ (net u).body ++ "\n") ∧
    (get_dataset net (some p) none ""
        (get_dataset net (some p) (some u) storage fs).2).1 =
      .ok (storage ++ (net u).body ++ "\n") := by
  have htru : truthy (some u) = true := by simp [truthy, hu]
  have htrp : truthy (some p) = true := by simp [truthy, hp]
  have hdl : download_dataset net u storage = .ok (storage ++ (net u).body) := by
    simp [download_dataset, hok]
  have hfirst : get_dataset net (some p) (some u) storage fs =
      (.ok (storage ++ (net u).body),
       fun q => if q = p then some (storage ++ (net u).body ++ "\n") else fs q) := by
    unfold get_dataset
    rw [htru]
    simp only [Bool.not_true, Bool.false_and, Bool.false_eq_true, if_false, if_true]
    rw [Option.getD_some, hdl, htrp]
    simp
  refine ⟨by rw [hfirst], by rw [hfirst]; simp, ?_⟩
  rw [hfirst]
  unfold get_dataset
  have hloc : localInvalid
      (fun q => if q = p then some (storage ++ (net u).body ++ "\n") else fs q)
      (some p) = false := by
    simp [localInvalid, hp]
  simp [truthy, hloc, hp]

/-- C1 witness: concrete round trip through the cache file gains a
newline. -/
theorem c1_round_trip_trailing_newline_witness :
    (get_dataset netAbc (some "f") (some "u") "" (fun _ => none)).1 = .ok "abc" ∧
    (get_dataset netAbc (some "f") (some "u") "" (fun _ => none)).2 "f" =
      some ("abc" ++ "\n") ∧
    (get_dataset netAbc (some "f") none ""
        (get_dataset netAbc (some "f") (some "u") "" (fun _ => none)).2).1 =
      .ok ("abc" ++ "\n") := by
  have h := c1_round_trip_trailing_newline netAbc "f" "u" "" (fun _ => none)
    (by decide) (by decide) rfl
  simpa using h

/-- C9: with a truthy remote URL the returned buffer is a function of the
response for that URL (and the passed-in storage buffer) alone: two calls
whose networks agree on `u` return identical buffers whatever the two
filesystems hold at the local path — the prior local-file content is never
read on the remote path. -/
theorem c9_remote_noninterference (net1 net2 : Net) (lf : Option String)
    (u storage : String) (fs1 fs2 : FileSys)
    (hu : u ≠ "") (hagree : net1 u = net2 u) :
    (get_dataset net1 lf (some u) storage fs1).1 =
      (get_dataset net2 lf (some u) storage fs2).1 := by
  have htru : truthy (some u) = true := by simp [truthy, hu]
  unfold get_dataset
  rw [htru]
  simp only [Bool.not_true, Bool.false_and, if_false, Bool.false_eq_true,
    Option.getD_some]
  unfold download_dataset
  rw [hagree]
  cases h : (net2 u).ok <;>
    cases hm : (net2 u).numAttr "status" <;>
      simp [h, hm] <;> cases htl : truthy lf <;> simp [htl]

/-- C9 witness: same remote content, two different prior cache contents,
identical returned buffers. -/
theorem c9_remote_noninterference_witness :
    (get_dataset netAbc (some "f") (some "u") ""
        (fun _ => none)).1 =
      (get_dataset netAbc (some "f") (some "u") ""
        (fun _ => some "stale cache")).1 :=
  c9_remote_noninterference netAbc netAbc (some "f") "u" ""
    (fun _ => none) (fun _ => some "stale cache") (by decide) rfl

/-! ### The presenter's line-break cleanup

`presenter.py` compiles `re.compile(r'\s*<\s*br\s*/?>\s*')` once and
substitutes every match with `'\n'`.  The matcher below is that regular
expression specialised to its fixed pattern: each quantifier is greedy, and
since `\s` is disjoint from every literal that follows a `\s*`, the greedy
scan needs no backtracking.  `\s` is modelled over its ASCII members. -/

/-- ASCII members of the `\s` character class of Python regular
expressions. -/
def isPySpace (c : Char) : Bool :=
  c = ' ' || c = '\t' || c = '\n' || c = '\r' || c = '\x0b' || c = '\x0c'

/-- Greedy `\s*`: drop the maximal run of whitespace. -/
def dropWs : List Char → List Char
  | [] => []
  | c :: cs => if isPySpace c then dropWs cs else c :: cs

/-- Try to match `\s*<\s*br\s*/?>\s*` at the start of `l`; on success
return the remainder of the input after the match. -/
def matchBr (l : List Char) : Option (List Char) :=
  match dropWs l with
  | '<' :: l1 =>
    match dropWs l1 with
    | 'b' :: 'r' :: l2 =>
      match dropWs l2 with
      | '/' :: '>' :: l3 => some (dropWs l3)
      | '>' :: l3 => some (dropWs l3)
      | _ => none
    | _ => none
  | _ => none

/-- One left-to-right substitution pass of `re.sub`: at each position try
the pattern; on a match emit `'\n'` and resume after the match, otherwise
keep the character and move on.  `fuel` bounds the recursion; any
`fuel ≥ l.length` computes the substitution (every match consumes at least
one character). -/
def subAux : Nat → List Char → List Char
  | 0, l => l
  | _ + 1, [] => []
  | fuel + 1, c :: cs =>
    match matchBr (c :: cs) with
    | some rest => '\n' :: subAux fuel rest
    | none => c :: subAux fuel cs

/-- `self._line_break_regex.sub('\n', s)`. -/
def lineBreakSub (s : String) : String :=
  ⟨subAux s.data.length s.data⟩

/-- One field of a `DocumentView`: the view objects carry string fields
and possibly non-string (here: numeric) fields. -/
inductive DocField where
  | str : String → DocField
  | num : Int → DocField
deriving DecidableEq, Repr

/-- Modelled from the spec: a `DocumentView` (defined in the repository's
`views.py`, which is not among the analyzed sources) is "an ordered,
fixed-shape value object exposing the fields of one Listing record",
reconstructible positionally field by field.  It is modelled as the
ordered list of its fields. -/
abbrev DocumentView := List DocField

/-- The cleaning of one field inside `Presenter.open_result_request`:
`self._line_break_regex.sub('\n', field) if type(field) is str else
field`. -/
def cleanField : DocField → DocField
  | .str s => .str (lineBreakSub s)
  | f => f

/-- The generator expression of `Presenter.open_result_request`:
`DocumentView(*(... for field in page))` — rebuild the view by cleaning
each field in order. -/
def clean (v : DocumentView) : DocumentView :=
  List.map cleanField v

/-- C6 counterexample: on the single-string view `"<br<br>>"` one cleaning
pass yields `"<br\n>"` — the replacement has created a fresh line-break
markup occurrence — and a second pass collapses it to `"\n"`, so the
transform is not idempotent. -/
theorem c6_cleanup_not_idempotent :
    clean [DocField.str "<br<br>>"] = [DocField.str "<br\n>"] ∧
    clean (clean [DocField.str "<br<br>>"]) = [DocField.str "\n"] ∧
    clean (clean [DocField.str "<br<br>>"]) ≠ clean [DocField.str "<br<br>>"] := by
  refine ⟨by decide, by decide, by decide⟩

/-- A field on which the pattern cannot match: a non-string, or a string
without the mandatory `<` character. -/
def markupFree : DocField → Bool
  | .str s => s.data.all (fun c => !(c = '<'))
  | .num _ => true

theorem mem_dropWs {c : Char} : ∀ {l : List Char}, c ∈ dropWs l → c ∈ l := by
  intro l
  induction l with
  | nil => simp [dropWs]
  | cons d ds ih =>
    intro h
    rw [dropWs] at h
    by_cases hd : isPySpace d = true
    · rw [if_pos hd] at h
      exact List.mem_cons_of_mem d (ih h)
    · rwa [if_neg hd] at h

theorem matchBr_some_mem {l r : List Char} (h : matchBr l = some r) :
    '<' ∈ l := by
  unfold matchBr at h
  cases hd : dropWs l with
  | nil => rw [hd] at h; exact absurd h (by simp)
  | cons c cs =>
    rw [hd] at h
    by_cases hc : c = '<'
    · subst hc
      exact mem_dropWs (hd ▸ List.mem_cons_self '<' cs)
    · exact absurd h (by simp_all [matchBr])

theorem subAux_of_no_lt : ∀ (fuel : Nat) (l : List Char),
    (∀ c ∈ l, c ≠ '<') → subAux fuel l = l := by
  intro fuel
  induction fuel with
  | zero => intro l _; rfl
  | succ n ih =>
    intro l hl
    cases l with
    | nil => rfl
    | cons c cs =>
      have hmb : matchBr (c :: cs) = none := by
        cases hm : matchBr (c :: cs) with
        | none => rfl
        | some r => exact absurd rfl (hl '<' (matchBr_some_mem hm))
      rw [subAux, hmb]
      exact congrArg (c :: ·) (ih cs fun d hd => hl d (List.mem_cons_of_mem c hd))

theorem lineBreakSub_of_markupFree {s : String}
    (h : s.data.all (fun c => !(c = '<')) = true) : lineBreakSub s = s := by
  cases s with
  | mk l =>
    show String.mk (subAux l.length l) = String.mk l
    refine congrArg String.mk (subAux_of_no_lt l.length l ?_)
    intro c hc
    simpa using List.all_eq_true.mp h c hc

theorem cleanField_of_markupFree {f : DocField} (h : markupFree f = true) :
    cleanField f = f := by
  cases f with
  | str s => exact congrArg DocField.str (lineBreakSub_of_markupFree h)
  | num n => rfl

theorem clean_of_markupFree {v : DocumentView}
    (h : v.all markupFree = true) : clean v = v := by
  unfold clean
  induction v with
  | nil => rfl
  | cons f fs ih =>
    rw [List.all_cons, Bool.and_eq_true] at h
    rw [List.map_cons, cleanField_of_markupFree h.1, ih h.2]

/-- C6 amended: the cleaning transform of `open_result_request` maps each
field independently — it preserves the number and order of fields, leaves
every non-string field unchanged, and rewrites every string field by the
line-break substitution, which collapses each markup form (with its
surrounding whitespace) to one newline; the transform is a no-op on views
whose strings are free of `<`, and re-applying it is a no-op whenever the
cleaned view is again free of `<` — but it is not idempotent on every
view, since a replacement can create a fresh markup occurrence. -/
theorem c6_cleanup_amended (v : DocumentView) :
    (clean v).length = v.length
    ∧ (∀ i (h : i < v.length) (h2 : i < (clean v).length) (n : Int),
        v.get ⟨i, h⟩ = DocField.num n → (clean v).get ⟨i, h2⟩ = DocField.num n)
    ∧ (∀ i (h : i < v.length) (h2 : i < (clean v).length) (s : String),
        v.get ⟨i, h⟩ = DocField.str s →
          (clean v).get ⟨i, h2⟩ = DocField.str (lineBreakSub s))
    ∧ lineBreakSub " <br> " = "\n"
    ∧ lineBreakSub "a<br/>b" = "a\nb"
    ∧ lineBreakSub "x <br /> y" = "x\ny"
    ∧ (v.all markupFree = true → clean v = v)
    ∧ ((clean v).all markupFree = true → clean (clean v) = clean v) := by
  refine ⟨by simp [clean], ?_, ?_, by decide, by decide, by decide,
    fun h => clean_of_markupFree h, fun h => clean_of_markupFree h⟩
  · intro i h h2 n hv
    simp only [clean, List.get_eq_getElem, List.getElem_map] at h2 ⊢
    rw [List.get_eq_getElem] at hv
    rw [hv]
    rfl
  · intro i h h2 s hv
    simp only [clean, List.get_eq_getElem, List.getElem_map] at h2 ⊢
    rw [List.get_eq_getElem] at hv
    rw [hv]
    rfl

/-! ### CSV parsing and the single-record lookup

`load_page` feeds the lines of the local dataset file to `csv.DictReader`
and keeps the rows whose `id` column equals the requested identifier.  The
CSV boundary is modelled for unquoted comma-separated content with a
header line: each data line is zipped with the header, blank lines are
skipped (as `DictReader` does). -/

/-- A parsed CSV row: header names paired with the line's values. -/
abbrev CsvRow := List (String × String)

/-- Split a character list at every occurrence of `sep` (the separator is
dropped), like Python's `str.split` with an explicit separator. -/
def splitOnChar (sep : Char) : List Char → List (List Char)
  | [] => [[]]
  | c :: cs =>
    if c = sep then [] :: splitOnChar sep cs
    else
      match splitOnChar sep cs with
      | [] => [[c]]
      | t :: ts => (c :: t) :: ts

/-- Split a string at every occurrence of `sep`. -/
def splitStr (sep : Char) (s : String) : List String :=
  (splitOnChar sep s.data).map (fun l => String.mk l)

/-- `csv.DictReader` over unquoted comma-separated text: the first
non-blank line is the header, every further non-blank line is zipped with
it (blank lines are skipped, as `DictReader` does). -/
def dictReader (content : String) : List CsvRow :=
  match (splitStr '\n' content).filter (fun l => !(l = "")) with
  | [] => []
  | header :: rest =>
    rest.map (fun line => (splitStr ',' header).zip (splitStr ',' line))

/-- `row[key]` on a parsed row: the value paired with `key`. -/
def lookupField (r : CsvRow) (k : String) : Option String :=
  (r.find? (fun p => p.1 = k)).map (fun p => p.2)

/-- Modelled from the spec: `DocumentView.from_record` (defined in the
repository's `views.py`, which is not among the analyzed sources) maps "a
raw Listing record's fields onto the fixed DocumentView shape, in a fixed
field order"; modelled as the record's values, in record order, as string
fields. -/
def DocumentView.fromRecord (r : CsvRow) : DocumentView :=
  r.map (fun p => DocField.str p.2)

/-- `load_page(local_dataset, id)` from `dataset.py`, applied to the
content of the dataset file: filter the parsed rows to those whose `id`
column equals the identifier, then `.pop()` the resulting Python list —
which removes and returns its LAST element, and raises `IndexError` on an
empty list. -/
def load_page (content : String) (pageId : String) : Except Err DocumentView :=
  match ((dictReader content).filter
      (fun r => lookupField r "id" = some pageId)).getLast? with
  | none => .error .indexError
  | some r => .ok (DocumentView.fromRecord r)

/-- C5 counterexample: in a file whose two data rows share id "7", the
first matching row is `7,a`, but `load_page` returns the view of the LAST
matching row `7,b` — `.pop()` takes the end of the list, not the front. -/
theorem c5_lookup_counterexample :
    ((dictReader "id,x\n7,a\n7,b\n").filter
        (fun r => lookupField r "id" = some "7")).head? =
      some [("id", "7"), ("x", "a")] ∧
    load_page "id,x\n7,a\n7,b\n" "7" =
      .ok [DocField.str "7", DocField.str "b"] ∧
    (Except.ok [DocField.str "7", DocField.str "b"] : Except Err DocumentView) ≠
      .ok (DocumentView.fromRecord [("id", "7"), ("x", "a")]) := by
  refine ⟨by decide, by decide, by decide⟩

/-- C5 amended: `load_page` returns the LAST row whose `id` column equals
the requested identifier — in particular the unique matching row whenever
at most one row matches, as with distinct ids — as a DocumentView of
exactly that row's fields, and fails with the `IndexError` of `.pop()` on
an empty list (the spec's NotFound kind) when no row matches. -/
theorem c5_lookup_last_match (content pid : String) :
    (∀ r, r ∈ dictReader content → lookupField r "id" = some pid →
      (∀ r', r' ∈ dictReader content → lookupField r' "id" = some pid → r' = r) →
      load_page content pid = .ok (DocumentView.fromRecord r))
    ∧ ((∀ r ∈ dictReader content, ¬ lookupField r "id" = some pid) →
      load_page content pid = .error .indexError) := by
  constructor
  · intro r hmem hid huniq
    have hrf : r ∈ (dictReader content).filter
        (fun r => lookupField r "id" = some pid) := by
      rw [List.mem_filter]
      exact ⟨hmem, by simp [hid]⟩
    have hne : (dictReader content).filter
        (fun r => lookupField r "id" = some pid) ≠ [] :=
      List.ne_nil_of_mem hrf
    have hsome := List.getLast?_isSome.mpr hne
    obtain ⟨y, hy⟩ := Option.isSome_iff_exists.mp hsome
    have hymem := List.mem_of_getLast?_eq_some hy
    rw [List.mem_filter] at hymem
    have : y = r := huniq y hymem.1 (by simpa using hymem.2)
    subst this
    unfold load_page
    rw [hy]
  · intro hnone
    have hnil : (dictReader content).filter
        (fun r => lookupField r "id" = some pid) = [] := by
      rw [List.filter_eq_nil_iff]
      intro a ha
      simpa using hnone a ha
    unfold load_page
    rw [hnil]
    rfl

/-- C5 witness: on the spec's three-row scenario, id "2" returns row 2's
view and the absent id "9" fails with the pop error. -/
theorem c5_lookup_last_match_witness :
    load_page "id,name\n1,ann\n2,bob\n3,cyd\n" "2" =
      .ok (DocumentView.fromRecord [("id", "2"), ("name", "bob")]) ∧
    load_page "id,name\n1,ann\n2,bob\n3,cyd\n" "9" = .error .indexError :=
  ⟨(c5_lookup_last_match "id,name\n1,ann\n2,bob\n3,cyd\n" "2").1
      [("id", "2"), ("name", "bob")] (by decide) (by decide)
      (fun r' h1 h2 => by
        have hrows : dictReader "id,name\n1,ann\n2,bob\n3,cyd\n" =
            [[("id", "1"), ("name", "ann")], [("id", "2"), ("name", "bob")],
             [("id", "3"), ("name", "cyd")]] := by decide
        rw [hrows] at h1
        simp only [List.mem_cons, List.not_mem_nil, or_false] at h1
        rcases h1 with rfl | rfl | rfl
        · exact absurd h2 (by decide)
        · rfl
        · exact absurd h2 (by decide)),
   (c5_lookup_last_match "id,name\n1,ann\n2,bob\n3,cyd\n" "9").2
      (by decide)⟩

/-- C6 witness: a concrete two-field view with one markup occurrence and a
numeric field, plus a markup-free view on which cleaning is a no-op. -/
theorem c6_cleanup_amended_witness :
    (clean [DocField.str "room <br> nice", DocField.num 42]).length = 2
    ∧ clean [DocField.str "plain text", DocField.num 3] =
        [DocField.str "plain text", DocField.num 3]
    ∧ clean (clean [DocField.str "plain text", DocField.num 3]) =
        clean [DocField.str "plain text", DocField.num 3] :=
  ⟨(c6_cleanup_amended [DocField.str "room <br> nice", DocField.num 42]).1,
   (c6_cleanup_amended
      [DocField.str "plain text", DocField.num 3]).2.2.2.2.2.2.1 (by decide),
   (c6_cleanup_amended
      [DocField.str "plain text", DocField.num 3]).2.2.2.2.2.2.2 (by decide)⟩

/-! ### The Presenter singleton and the event broker

`presenter.py` stores the single instance in `Presenter.__instance`:
`__new__` returns the stored object (creating it only when absent), after
which Python runs `__init__` on EVERY construction call — overwriting
`_model` and `_local_dataset` and constructing two fresh `Observer`
bindings each time.  `Observer` and the topic objects live in
`placerank.tui.events`, which is not among the analyzed sources, and are
modelled from the spec. -/

/-- The two bound-method callbacks the presenter registers. -/
inductive HandlerTag where
  | searchQueryUpdate
  | openResultRequest
deriving DecidableEq, Repr

/-- The topic `Events.SEARCH_QUERY_UPDATE.value`. -/
def SEARCH_QUERY_UPDATE : String := "search-query-update"

/-- The topic `Events.OPEN_RESULT_REQUEST.value`. -/
def OPEN_RESULT_REQUEST : String := "open-result-request"

/-- Modelled from the spec: the event broker of `placerank.tui.events`
(absent from the analyzed sources).  `Observer(callback, topics)`
registers the callback "to be invoked for every future publish on each
topic", with no unsubscribe; the broker state is the registration list of
topic/callback pairs, in registration order. -/
abbrev Broker := List (String × HandlerTag)

/-- Modelled from the spec: `notify(payload)` on a topic "synchronously
invokes every registered callback for that topic" in registration order —
here, the list of callbacks that a publish on `topic` invokes. -/
def notifyRun (broker : Broker) (topic : String) : List HandlerTag :=
  (broker.filter (fun s => s.1 = topic)).map (fun s => s.2)

/-- Process-wide state: `Presenter.__instance` (an object identity with
its `_model` and `_local_dataset` attributes — the injected `IRModel` is
abstracted to an identity tag), a counter supplying fresh object
identities, and the broker registrations. -/
structure ProcState where
  inst : Option (Nat × Nat × String)
  nextId : Nat
  broker : Broker
deriving DecidableEq, Repr

/-- The state of a fresh process: no instance, no registrations. -/
def initState : ProcState := ⟨none, 0, []⟩

/-- `Presenter(model, local_dataset)` from `presenter.py`: `__new__`
returns the stored instance, creating one only if absent; `__init__` then
runs on every call, setting `_model` and `_local_dataset` and registering
the two observers.  Returns the handle (object identity) and the new
process state. -/
def Presenter.construct (s : ProcState) (model : Nat)
    (local_dataset : String) : Nat × ProcState :=
  let objId := match s.inst with
    | some p => p.1
    | none => s.nextId
  let next := match s.inst with
    | some _ => s.nextId
    | none => s.nextId + 1
  (objId,
   { inst := some (objId, model, local_dataset),
     nextId := next,
     broker := s.broker ++
       [(SEARCH_QUERY_UPDATE, .searchQueryUpdate),
        (OPEN_RESULT_REQUEST, .openResultRequest)] })

/-- C3 counterexample: constructing the Presenter with model 1 and dataset
"datasets/a.csv" and again with model 2 and "datasets/b.csv" hands back
the same object, but that object is now configured with the SECOND
construction's arguments — the first construction's configuration is
overwritten, not kept. -/
theorem c3_presenter_counterexample :
    (Presenter.construct (Presenter.construct initState 1 "datasets/a.csv").2
        2 "datasets/b.csv").1 =
      (Presenter.construct initState 1 "datasets/a.csv").1 ∧
    (Presenter.construct (Presenter.construct initState 1 "datasets/a.csv").2
        2 "datasets/b.csv").2.inst =
      some ((Presenter.construct initState 1 "datasets/a.csv").1, 2,
        "datasets/b.csv") ∧
    (Presenter.construct (Presenter.construct initState 1 "datasets/a.csv").2
        2 "datasets/b.csv").2.inst ≠
      some ((Presenter.construct initState 1 "datasets/a.csv").1, 1,
        "datasets/a.csv") := by
  refine ⟨by decide, by decide, by decide⟩

/-- C3 amended: repeated construction does return the same underlying
instance, but the second construction's arguments are NOT discarded:
initialization runs again, so after the second construction the instance
is configured with the second call's model and local_dataset (and two
more observer bindings have been registered). -/
theorem c3_presenter_reinitialized (s : ProcState) (m1 m2 : Nat)
    (d1 d2 : String) :
    (Presenter.construct (Presenter.construct s m1 d1).2 m2 d2).1 =
      (Presenter.construct s m1 d1).1 ∧
    (Presenter.construct (Presenter.construct s m1 d1).2 m2 d2).2.inst =
      some ((Presenter.construct s m1 d1).1, m2, d2) ∧
    (Presenter.construct (Presenter.construct s m1 d1).2 m2 d2).2.broker =
      (Presenter.construct s m1 d1).2.broker ++
        [(SEARCH_QUERY_UPDATE, .searchQueryUpdate),
         (OPEN_RESULT_REQUEST, .openResultRequest)] := by
  cases h : s.inst <;> simp [Presenter.construct, h]

/-- Run a sequence of Presenter constructions, one per (model, dataset)
argument pair. -/
def constructAll (s : ProcState) : List (Nat × String) → ProcState
  | [] => s
  | a :: rest => constructAll (Presenter.construct s a.1 a.2).2 rest

/-- The registrations added by `k` constructions: the presenter's two
bindings, `k` times over. -/
def regBlock : Nat → Broker
  | 0 => []
  | n + 1 =>
    (SEARCH_QUERY_UPDATE, .searchQueryUpdate) ::
      (OPEN_RESULT_REQUEST, .openResultRequest) :: regBlock n

theorem notifyRun_append (b1 b2 : Broker) (t : String) :
    notifyRun (b1 ++ b2) t = notifyRun b1 t ++ notifyRun b2 t := by
  simp [notifyRun, List.filter_append]

theorem constructAll_broker (args : List (Nat × String)) : ∀ s : ProcState,
    (constructAll s args).broker = s.broker ++ regBlock args.length := by
  induction args with
  | nil => intro s; simp [constructAll, regBlock]
  | cons a rest ih =>
    intro s
    rw [constructAll, ih]
    show (s.broker ++ _) ++ regBlock rest.length = _
    rw [List.append_assoc]
    rfl

theorem notifyRun_regBlock_search (k : Nat) :
    notifyRun (regBlock k) SEARCH_QUERY_UPDATE =
      List.replicate k HandlerTag.searchQueryUpdate := by
  induction k with
  | zero => rfl
  | succ n ih =>
    rw [regBlock]
    rw [show notifyRun ((SEARCH_QUERY_UPDATE, HandlerTag.searchQueryUpdate) ::
      (OPEN_RESULT_REQUEST, HandlerTag.openResultRequest) :: regBlock n)
        SEARCH_QUERY_UPDATE =
      HandlerTag.searchQueryUpdate :: notifyRun (regBlock n)
        SEARCH_QUERY_UPDATE from by
        simp [notifyRun, List.filter, SEARCH_QUERY_UPDATE, OPEN_RESULT_REQUEST]]
    rw [ih, List.replicate_succ]

theorem notifyRun_regBlock_open (k : Nat) :
    notifyRun (regBlock k) OPEN_RESULT_REQUEST =
      List.replicate k HandlerTag.openResultRequest := by
  induction k with
  | zero => rfl
  | succ n ih =>
    rw [regBlock]
    rw [show notifyRun ((SEARCH_QUERY_UPDATE, HandlerTag.searchQueryUpdate) ::
      (OPEN_RESULT_REQUEST, HandlerTag.openResultRequest) :: regBlock n)
        OPEN_RESULT_REQUEST =
      HandlerTag.openResultRequest :: notifyRun (regBlock n)
        OPEN_RESULT_REQUEST from by
        simp [notifyRun, List.filter, SEARCH_QUERY_UPDATE, OPEN_RESULT_REQUEST]]
    rw [ih, List.replicate_succ]

/-- C10: starting from a fresh process, every one of `k` Presenter
constructions registers two fresh observer bindings, so a single publish
on the search-query-update topic invokes the search handler once per
construction — `k` times, not exactly once — and likewise a publish on
open-result-request invokes the open-result handler `k` times. -/
theorem c10_duplicate_subscriptions (args : List (Nat × String)) :
    notifyRun (constructAll initState args).broker SEARCH_QUERY_UPDATE =
      List.replicate args.length HandlerTag.searchQueryUpdate ∧
    notifyRun (constructAll initState args).broker OPEN_RESULT_REQUEST =
      List.replicate args.length HandlerTag.openResultRequest := by
  rw [constructAll_broker args initState]
  show notifyRun ([] ++ regBlock args.length) SEARCH_QUERY_UPDATE = _ ∧
    notifyRun ([] ++ regBlock args.length) OPEN_RESULT_REQUEST = _
  rw [List.nil_append, notifyRun_regBlock_search, notifyRun_regBlock_open]
  exact ⟨rfl, rfl⟩

/-! ### The indexing pipeline -/

/-- The process-visible storage of `populate_index`: the file system and
the on-disk indexes, the latter mapping an index directory to the list of
documents it holds (`none`: no index at that path). -/
structure Sys where
  files : FileSys
  indexes : String → Option (List CsvRow)

/-- `create_index(index_dir, schema)` from `dataset.py`: create the
directory if absent, then `create_in` — which always (re)creates the index
structure at that path, discarding any prior contents: afterwards the
directory holds a fresh, empty index. -/
def create_index (ixs : String → Option (List CsvRow)) (dir : String) :
    String → Option (List CsvRow) :=
  fun p => if p = dir then some [] else ixs p

/-- `populate_index(index_dir, local_file, remote_url)` from `dataset.py`:
build the schema, create the fresh index at `index_dir`, THEN acquire the
dataset and add one document per parsed CSV row.  The row-to-document
mapping `schema.get_document_logic_view` lives in the missing `views.py`;
documents are modelled as the parsed rows themselves (the mapping is
irrelevant to the reset ordering). -/
def populate_index (net : Net) (index_dir : String)
    (local_file remote_url : Option String) (sys : Sys) :
    Except Err Unit × Sys :=
  let ixs1 := create_index sys.indexes index_dir
  match get_dataset net local_file remote_url "" sys.files with
  | (.error e, files2) => (.error e, { files := files2, indexes := ixs1 })
  | (.ok s, files2) =>
    (.ok (), { files := files2,
               indexes := fun p =>
                 if p = index_dir then some (dictReader s) else ixs1 p })

/-- C8: `populate_index` discards the prior index before acquiring the
dataset — whenever `get_dataset` fails, the call fails with that error
AND the index directory already holds a fresh empty index, whatever it
held before: the pre-existing index is not preserved on error. -/
theorem c8_index_reset_before_acquisition (net : Net) (dir : String)
    (lf ru : Option String) (sys : Sys) (e : Err)
    (hfail : (get_dataset net lf ru "" sys.files).1 = .error e) :
    (populate_index net dir lf ru sys).1 = .error e ∧
    (populate_index net dir lf ru sys).2.indexes dir = some [] := by
  unfold populate_index
  rcases hgd : get_dataset net lf ru "" sys.files with ⟨res, files2⟩
  rw [hgd] at hfail
  cases res with
  | error e2 =>
    cases hfail
    exact ⟨rfl, by simp [create_index]⟩
  | ok s => exact absurd hfail (by simp)

/-- C8 witness: with no usable source, acquisition fails with the
invalid-input error and the previously populated index at "index/" has
already been replaced by a fresh empty one. -/
theorem c8_index_reset_before_acquisition_witness :
    (populate_index net503 "index/" none none
        ⟨fun _ => none, fun p => if p = "index/" then
          some [[("id", "old-doc")]] else none⟩).1 =
      .error (.runtimeError
        "Invalid local file and no remote source. Please provide at least one valid argument.") ∧
    (populate_index net503 "index/" none none
        ⟨fun _ => none, fun p => if p = "index/" then
          some [[("id", "old-doc")]] else none⟩).2.indexes "index/" =
      some [] :=
  c8_index_reset_before_acquisition net503 "index/" none none
    ⟨fun _ => none, fun p => if p = "index/" then
      some [[("id", "old-doc")]] else none⟩
    (.runtimeError
      "Invalid local file and no remote source. Please provide at least one valid argument.")
    rfl
